import Mathlib

/-!
Shallow embedding of `todoist_alchemy.py` (the `TodoistAlchemy` client).

Python values that can appear in the JSON dictionaries are modelled by
`PyVal`; dictionaries by ordered association lists (`PyDict`).  Python
truthiness (`if x:`) and the `str()` normalization used for id comparison
are modelled explicitly.  Each client method becomes a pure function that
takes the HTTP responses it would receive as explicit arguments and
returns the post-state, the list of HTTP requests it issued, and either a
result or the raised exception (`TodoistAlchemyError` messages, or a
`KeyError` for a missing dictionary key).  Exceptions do not roll back
state, matching Python semantics.
-/

/-- Values stored in the JSON dictionaries exchanged with the remote API. -/
inductive PyVal where
  | pstr  : String → PyVal
  | pint  : Int → PyVal
  | pbool : Bool → PyVal
  | pnone : PyVal
deriving DecidableEq

/-- Python dictionaries with string keys, as ordered association lists. -/
abbrev PyDict := List (String × PyVal)

/-- Python truthiness of a value (`if x:`). -/
def truthy : PyVal → Bool
  | .pstr s  => s != ""
  | .pint n  => n != 0
  | .pbool b => b
  | .pnone   => false

/-- Python `str(x)` for the values we model. -/
def pyStr : PyVal → String
  | .pstr s      => s
  | .pint n      => toString n
  | .pbool true  => "True"
  | .pbool false => "False"
  | .pnone       => "None"

/-- Python `d.get(k)`: the value at `k`, or `None` when absent. -/
def dictGet (d : PyDict) (k : String) : PyVal :=
  match List.lookup k d with
  | some v => v
  | none   => .pnone

/-- Exceptions the client can raise: `TodoistAlchemyError msg` or a
`KeyError` from subscripting a dictionary that lacks the key. -/
inductive PyError where
  | alchemyError : String → PyError
  | keyError     : String → PyError
deriving DecidableEq

/-- An HTTP request issued by the client (method, URL, optional JSON body). -/
structure HttpRequest where
  method : String
  url    : String
  body   : Option PyDict
deriving DecidableEq

/-- A response whose JSON body is a list of objects (the two list endpoints). -/
structure ListResponse where
  status   : Nat
  text     : String
  jsonBody : List PyDict
deriving DecidableEq

/-- A response whose JSON body is a single object (create and single fetch). -/
structure DictResponse where
  status   : Nat
  text     : String
  jsonBody : PyDict
deriving DecidableEq

/-- A response whose body is only inspected as raw text (delete, update). -/
structure RawResponse where
  status : Nat
  text   : String
deriving DecidableEq

/-- The client state: credential, headers, the two caches, the loaded flag. -/
structure TodoistAlchemy where
  api_token : PyVal
  headers   : List (String × String)
  _projects : List PyDict
  _tasks    : List PyDict
  _loaded   : Bool
deriving DecidableEq

def TODOIST_API_BASE : String := "https://api.todoist.com/rest/v2/"

instance {ε α : Type} [DecidableEq ε] [DecidableEq α] : DecidableEq (Except ε α) := fun x y =>
  match x, y with
  | .ok a, .ok b =>
    if h : a = b then .isTrue (by rw [h]) else .isFalse (by intro hc; cases hc; exact h rfl)
  | .ok _, .error _ => .isFalse (by intro hc; cases hc)
  | .error _, .ok _ => .isFalse (by intro hc; cases hc)
  | .error e, .error f =>
    if h : e = f then .isTrue (by rw [h]) else .isFalse (by intro hc; cases hc; exact h rfl)

/-- Outcome of one client method: post-state, requests issued, and the
returned value or raised exception. -/
structure OpResult (α : Type) where
  state    : TodoistAlchemy
  requests : List HttpRequest
  result   : Except PyError α
deriving DecidableEq

/-- Constructor `TodoistAlchemy.__init__`: `api_token or os.environ.get(...)`,
raising when the resulting token is falsy.  The first component is the list
of HTTP requests issued during construction (none). -/
def mkClient (api_token : PyVal) (env_token : Option String) :
    List HttpRequest × Except PyError TodoistAlchemy :=
  let tok := if truthy api_token then api_token
             else match env_token with
                  | some s => PyVal.pstr s
                  | none   => PyVal.pnone
  if truthy tok then
    ([], .ok { api_token := tok,
               headers := [("Authorization", "Bearer " ++ pyStr tok),
                           ("Content-Type", "application/json")],
               _projects := [], _tasks := [], _loaded := false })
  else
    ([], .error (.alchemyError "No Todoist API token provided."))

def projectsListReq : HttpRequest :=
  { method := "GET", url := TODOIST_API_BASE ++ "projects", body := none }

def tasksListReq : HttpRequest :=
  { method := "GET", url := TODOIST_API_BASE ++ "tasks", body := none }

/-- Method `sync`: fetch the project list, then the task list; each cache is
replaced as soon as its fetch succeeds, and `_loaded` is set only after both. -/
def TodoistAlchemy.sync (c : TodoistAlchemy) (resp_projects resp_tasks : ListResponse) :
    OpResult Unit :=
  if resp_projects.status = 200 then
    let c1 := { c with _projects := resp_projects.jsonBody }
    if resp_tasks.status = 200 then
      { state := { c1 with _tasks := resp_tasks.jsonBody, _loaded := true },
        requests := [projectsListReq, tasksListReq],
        result := .ok () }
    else
      { state := c1, requests := [projectsListReq, tasksListReq],
        result := .error (.alchemyError ("Error fetching tasks: " ++ resp_tasks.text)) }
  else
    { state := c, requests := [projectsListReq],
      result := .error (.alchemyError ("Error fetching projects: " ++ resp_projects.text)) }

/-- Method `get_projects`: sync first when never loaded, then return the cache. -/
def TodoistAlchemy.get_projects (c : TodoistAlchemy) (resp_projects resp_tasks : ListResponse) :
    OpResult (List PyDict) :=
  if c._loaded then
    { state := c, requests := [], result := .ok c._projects }
  else
    let s := c.sync resp_projects resp_tasks
    match s.result with
    | .ok _    => { state := s.state, requests := s.requests, result := .ok s.state._projects }
    | .error e => { state := s.state, requests := s.requests, result := .error e }

/-- Method `get_tasks`: sync first when never loaded; filter by
`str(t.get("project_id")) == str(project_id)` only when `project_id` is truthy. -/
def TodoistAlchemy.get_tasks (c : TodoistAlchemy) (resp_projects resp_tasks : ListResponse)
    (project_id : PyVal) : OpResult (List PyDict) :=
  if c._loaded then
    { state := c, requests := [],
      result := .ok (if truthy project_id then
          c._tasks.filter (fun t => pyStr (dictGet t "project_id") == pyStr project_id)
        else c._tasks) }
  else
    let s := c.sync resp_projects resp_tasks
    match s.result with
    | .ok _ =>
      { state := s.state, requests := s.requests,
        result := .ok (if truthy project_id then
            s.state._tasks.filter (fun t => pyStr (dictGet t "project_id") == pyStr project_id)
          else s.state._tasks) }
    | .error e => { state := s.state, requests := s.requests, result := .error e }

/-- Method `create_project`: POST the name; on 200 append the returned object. -/
def TodoistAlchemy.create_project (c : TodoistAlchemy) (name : String) (resp : DictResponse) :
    OpResult PyDict :=
  let payload : PyDict := [("name", PyVal.pstr name)]
  let req : HttpRequest :=
    { method := "POST", url := TODOIST_API_BASE ++ "projects", body := some payload }
  if resp.status = 200 then
    { state := { c with _projects := c._projects ++ [resp.jsonBody] },
      requests := [req], result := .ok resp.jsonBody }
  else
    { state := c, requests := [req],
      result := .error (.alchemyError ("Error creating project: " ++ resp.text)) }

/-- The comprehension `[p for p in ps if str(p["id"]) != str(idv)]`, with the
`KeyError` that `p["id"]` raises on a dictionary without an `"id"` key. -/
def filterOutId : List PyDict → PyVal → Except PyError (List PyDict)
  | [], _ => .ok []
  | p :: ps, idv =>
    match List.lookup "id" p with
    | none => .error (.keyError "id")
    | some v =>
      match filterOutId ps idv with
      | .error e => .error e
      | .ok rest => .ok (if pyStr v != pyStr idv then p :: rest else rest)

/-- Method `delete_project`: DELETE; on 204 or 200 drop matching cache entries. -/
def TodoistAlchemy.delete_project (c : TodoistAlchemy) (project_id : PyVal) (resp : RawResponse) :
    OpResult Unit :=
  let req : HttpRequest :=
    { method := "DELETE", url := TODOIST_API_BASE ++ "projects/" ++ pyStr project_id,
      body := none }
  if resp.status = 204 ∨ resp.status = 200 then
    match filterOutId c._projects project_id with
    | .ok ps   => { state := { c with _projects := ps }, requests := [req], result := .ok () }
    | .error e => { state := c, requests := [req], result := .error e }
  else
    { state := c, requests := [req],
      result := .error (.alchemyError ("Error deleting project: " ++ resp.text)) }

/-- Python `d[k] = v`: replace the value at `k` in place, else append. -/
def setItem : PyDict → String → PyVal → PyDict
  | [], k, v => [(k, v)]
  | (k0, v0) :: rest, k, v =>
    if k0 == k then (k0, v) :: rest else (k0, v0) :: setItem rest k v

/-- Python `d.update(kwargs)`: set each binding of `kwargs` in order. -/
def dictUpdate (d : PyDict) (kwargs : PyDict) : PyDict :=
  kwargs.foldl (fun acc kv => setItem acc kv.1 kv.2) d

/-- The request body built by `create_task`: `{"content": content}`, then
`payload["project_id"] = project_id` when truthy, then `payload.update(kwargs)`. -/
def create_task_payload (content : String) (project_id : PyVal) (kwargs : PyDict) : PyDict :=
  let payload : PyDict := [("content", PyVal.pstr content)]
  let payload := if truthy project_id then setItem payload "project_id" project_id else payload
  dictUpdate payload kwargs

/-- Method `create_task`: POST the merged payload; on 200 append the result. -/
def TodoistAlchemy.create_task (c : TodoistAlchemy) (content : String) (project_id : PyVal)
    (kwargs : PyDict) (resp : DictResponse) : OpResult PyDict :=
  let payload := create_task_payload content project_id kwargs
  let req : HttpRequest :=
    { method := "POST", url := TODOIST_API_BASE ++ "tasks", body := some payload }
  if resp.status = 200 then
    { state := { c with _tasks := c._tasks ++ [resp.jsonBody] },
      requests := [req], result := .ok resp.jsonBody }
  else
    { state := c, requests := [req],
      result := .error (.alchemyError ("Error creating task: " ++ resp.text)) }

/-- The update loop of `update_task`: replace the first entry whose
`str(t["id"])` equals `str(task_id)` and stop; `t["id"]` can raise `KeyError`. -/
def replaceFirstById : List PyDict → PyVal → PyDict → Except PyError (List PyDict)
  | [], _, _ => .ok []
  | t :: ts, task_id, updated =>
    match List.lookup "id" t with
    | none => .error (.keyError "id")
    | some v =>
      if pyStr v == pyStr task_id then .ok (updated :: ts)
      else
        match replaceFirstById ts task_id updated with
        | .ok rest => .ok (t :: rest)
        | .error e => .error e

/-- Method `update_task`: POST the fields; on 204 or 200 re-fetch the single
task; on a 200 fetch replace the first matching cache entry and return the
fetched object; on a failed fetch raise without touching the cache. -/
def TodoistAlchemy.update_task (c : TodoistAlchemy) (task_id : PyVal) (kwargs : PyDict)
    (resp : RawResponse) (updated : DictResponse) : OpResult PyDict :=
  let req1 : HttpRequest :=
    { method := "POST", url := TODOIST_API_BASE ++ "tasks/" ++ pyStr task_id,
      body := some kwargs }
  if resp.status = 204 ∨ resp.status = 200 then
    let req2 : HttpRequest :=
      { method := "GET", url := TODOIST_API_BASE ++ "tasks/" ++ pyStr task_id, body := none }
    if updated.status = 200 then
      let updated_task := updated.jsonBody
      match replaceFirstById c._tasks task_id updated_task with
      | .ok ts =>
        { state := { c with _tasks := ts }, requests := [req1, req2],
          result := .ok updated_task }
      | .error e => { state := c, requests := [req1, req2], result := .error e }
    else
      { state := c, requests := [req1, req2],
        result := .error (.alchemyError ("Error fetching updated task: " ++ updated.text)) }
  else
    { state := c, requests := [req1],
      result := .error (.alchemyError ("Error updating task: " ++ resp.text)) }

/-- Method `delete_task`: DELETE; on 204 or 200 drop matching cache entries. -/
def TodoistAlchemy.delete_task (c : TodoistAlchemy) (task_id : PyVal) (resp : RawResponse) :
    OpResult Unit :=
  let req : HttpRequest :=
    { method := "DELETE", url := TODOIST_API_BASE ++ "tasks/" ++ pyStr task_id, body := none }
  if resp.status = 204 ∨ resp.status = 200 then
    match filterOutId c._tasks task_id with
    | .ok ts   => { state := { c with _tasks := ts }, requests := [req], result := .ok () }
    | .error e => { state := c, requests := [req], result := .error e }
  else
    { state := c, requests := [req],
      result := .error (.alchemyError ("Error deleting task: " ++ resp.text)) }

/-- Whether a cached object has an `"id"` whose `str()` equals `str(idv)`. -/
def matchesId (d : PyDict) (idv : PyVal) : Bool :=
  match List.lookup "id" d with
  | some v => pyStr v == pyStr idv
  | none   => false

/-- Specification-side replacement: the first entry matching the id is
replaced, every other entry is kept unchanged in order. -/
def replaceFirstSpec : List PyDict → PyVal → PyDict → List PyDict
  | [], _, _ => []
  | t :: ts, idv, u => if matchesId t idv then u :: ts else t :: replaceFirstSpec ts idv u

/-! Concrete sample data used by witnesses and counterexamples. -/

def sampleProject : PyDict := [("id", PyVal.pint 1), ("name", PyVal.pstr "Inbox")]

def sampleTask : PyDict :=
  [("id", PyVal.pint 10), ("content", PyVal.pstr "Buy milk"), ("project_id", PyVal.pint 5)]

def renamedTask : PyDict :=
  [("id", PyVal.pint 10), ("content", PyVal.pstr "Renamed"), ("project_id", PyVal.pint 5)]

def sampleClient : TodoistAlchemy :=
  { api_token := PyVal.pstr "tok", headers := [],
    _projects := [sampleProject], _tasks := [sampleTask], _loaded := true }

def sampleUnsynced : TodoistAlchemy :=
  { api_token := PyVal.pstr "tok", headers := [],
    _projects := [], _tasks := [], _loaded := false }

def sampleProjectsResp : ListResponse :=
  { status := 200, text := "[]", jsonBody := [sampleProject] }

def sampleTasksResp : ListResponse :=
  { status := 200, text := "[]", jsonBody := [sampleTask] }

def emptyListResp : ListResponse := { status := 0, text := "", jsonBody := [] }

def zeroTask : PyDict := [("id", PyVal.pint 1), ("project_id", PyVal.pint 0)]

def sevenTask : PyDict := [("id", PyVal.pint 2), ("project_id", PyVal.pint 7)]

def clientZeroSeven : TodoistAlchemy :=
  { api_token := PyVal.pstr "tok", headers := [],
    _projects := [], _tasks := [zeroTask, sevenTask], _loaded := true }

/-! Helper lemmas about the embedded operations. -/

theorem sync_ok_eq (c : TodoistAlchemy) (rp rt : ListResponse)
    (hp : rp.status = 200) (ht : rt.status = 200) :
    c.sync rp rt
      = { state := { c with _projects := rp.jsonBody, _tasks := rt.jsonBody, _loaded := true },
          requests := [projectsListReq, tasksListReq], result := .ok () } := by
  simp [TodoistAlchemy.sync, hp, ht]

theorem sync_tasks_fail_eq (c : TodoistAlchemy) (rp rt : ListResponse)
    (hp : rp.status = 200) (ht : rt.status ≠ 200) :
    c.sync rp rt
      = { state := { c with _projects := rp.jsonBody },
          requests := [projectsListReq, tasksListReq],
          result := .error (.alchemyError ("Error fetching tasks: " ++ rt.text)) } := by
  simp [TodoistAlchemy.sync, hp, ht]

theorem sync_projects_fail_eq (c : TodoistAlchemy) (rp rt : ListResponse)
    (hp : rp.status ≠ 200) :
    c.sync rp rt
      = { state := c, requests := [projectsListReq],
          result := .error (.alchemyError ("Error fetching projects: " ++ rp.text)) } := by
  simp [TodoistAlchemy.sync, hp]

theorem get_projects_loaded (c : TodoistAlchemy) (rp rt : ListResponse)
    (h : c._loaded = true) :
    c.get_projects rp rt = { state := c, requests := [], result := .ok c._projects } := by
  simp [TodoistAlchemy.get_projects, h]

theorem get_tasks_loaded_none (c : TodoistAlchemy) (rp rt : ListResponse)
    (h : c._loaded = true) :
    c.get_tasks rp rt PyVal.pnone = { state := c, requests := [], result := .ok c._tasks } := by
  simp [TodoistAlchemy.get_tasks, h, truthy]

theorem get_projects_unloaded_requests (c : TodoistAlchemy) (rp rt : ListResponse)
    (h : c._loaded = false) :
    (c.get_projects rp rt).requests = (c.sync rp rt).requests := by
  simp only [TodoistAlchemy.get_projects, h, Bool.false_eq_true, if_false]
  cases hr : (c.sync rp rt).result <;> simp [hr]

theorem get_tasks_unloaded_requests (c : TodoistAlchemy) (rp rt : ListResponse) (pid : PyVal)
    (h : c._loaded = false) :
    (c.get_tasks rp rt pid).requests = (c.sync rp rt).requests := by
  simp only [TodoistAlchemy.get_tasks, h, Bool.false_eq_true, if_false]
  cases hr : (c.sync rp rt).result <;> simp [hr]

theorem filterOutId_eq_filter (ps : List PyDict) (idv : PyVal)
    (h : ∀ p ∈ ps, (List.lookup "id" p).isSome) :
    filterOutId ps idv = .ok (ps.filter (fun p => !(matchesId p idv))) := by
  induction ps with
  | nil => rfl
  | cons p ps ih =>
    obtain ⟨v, hv⟩ := Option.isSome_iff_exists.mp (h p (List.mem_cons_self p ps))
    have ht : ∀ q ∈ ps, (List.lookup "id" q).isSome :=
      fun q hq => h q (List.mem_cons_of_mem _ hq)
    simp only [filterOutId, hv, ih ht, List.filter_cons, matchesId]
    cases hb : pyStr v == pyStr idv <;> simp [bne, hb]

theorem replaceFirstById_eq_spec (ts : List PyDict) (idv : PyVal) (u : PyDict)
    (h : ∀ t ∈ ts, (List.lookup "id" t).isSome) :
    replaceFirstById ts idv u = .ok (replaceFirstSpec ts idv u) := by
  induction ts with
  | nil => rfl
  | cons t ts ih =>
    obtain ⟨v, hv⟩ := Option.isSome_iff_exists.mp (h t (List.mem_cons_self t ts))
    have ht : ∀ q ∈ ts, (List.lookup "id" q).isSome :=
      fun q hq => h q (List.mem_cons_of_mem _ hq)
    simp only [replaceFirstById, replaceFirstSpec, hv, ih ht, matchesId]
    cases hb : pyStr v == pyStr idv <;> simp [hb]

/-- Claim C1: after a successful `sync()`, the project cache and task cache
equal exactly the two lists received from the remote service, the client is
marked synced, and every subsequent `get_projects`/`get_tasks` call returns
the cached collections issuing no further request and leaving the state
unchanged; on a never-synced client the first `get_projects` call triggers
exactly one `sync` (it issues exactly the two sync GET requests and leaves
the client in the synced state). -/
theorem sync_populates_caches_and_gates_resync
    (c : TodoistAlchemy) (rp rt : ListResponse)
    (hp : rp.status = 200) (ht : rt.status = 200) :
    (c.sync rp rt).result = .ok ()
  ∧ (c.sync rp rt).state._projects = rp.jsonBody
  ∧ (c.sync rp rt).state._tasks = rt.jsonBody
  ∧ (c.sync rp rt).state._loaded = true
  ∧ (∀ rp2 rt2 : ListResponse,
      ((c.sync rp rt).state.get_projects rp2 rt2)
        = { state := (c.sync rp rt).state, requests := [], result := .ok rp.jsonBody })
  ∧ (∀ rp2 rt2 : ListResponse,
      ((c.sync rp rt).state.get_tasks rp2 rt2 PyVal.pnone)
        = { state := (c.sync rp rt).state, requests := [], result := .ok rt.jsonBody })
  ∧ (c._loaded = false →
      (c.get_projects rp rt).requests = [projectsListReq, tasksListReq]
    ∧ (c.get_projects rp rt).result = .ok rp.jsonBody
    ∧ (c.get_projects rp rt).state = (c.sync rp rt).state) := by
  rw [sync_ok_eq c rp rt hp ht]
  refine ⟨rfl, rfl, rfl, rfl, ?_, ?_, ?_⟩
  · intro rp2 rt2
    exact get_projects_loaded _ rp2 rt2 rfl
  · intro rp2 rt2
    exact get_tasks_loaded_none _ rp2 rt2 rfl
  · intro hl
    simp [TodoistAlchemy.get_projects, hl, sync_ok_eq c rp rt hp ht]

/-- Witness for Claim C1 at a concrete never-synced client and concrete
successful responses. -/
theorem sync_populates_caches_and_gates_resync_witness :
    (sampleUnsynced.sync sampleProjectsResp sampleTasksResp).result = .ok ()
  ∧ (sampleUnsynced.sync sampleProjectsResp sampleTasksResp).state._projects
      = sampleProjectsResp.jsonBody :=
  ⟨(sync_populates_caches_and_gates_resync sampleUnsynced sampleProjectsResp sampleTasksResp
      rfl rfl).1,
   (sync_populates_caches_and_gates_resync sampleUnsynced sampleProjectsResp sampleTasksResp
      rfl rfl).2.1⟩

/-- Claim C2 counterexample: the error raised for a 404 response with body
"not found" is the message "Error creating project: not found"; the same
error is raised for a 500 response with that body, and the message contains
no digit at all, so the raised error does not carry the HTTP status 404. -/
theorem create_project_error_lacks_status_cx :
    (sampleClient.create_project "X"
        { status := 404, text := "not found", jsonBody := [] }).result
      = .error (.alchemyError "Error creating project: not found")
  ∧ (sampleClient.create_project "X"
        { status := 404, text := "not found", jsonBody := [] }).result
      = (sampleClient.create_project "X"
          { status := 500, text := "not found", jsonBody := [] }).result
  ∧ "Error creating project: not found".toList.all (fun ch => !ch.isDigit) = true :=
  ⟨by decide, by decide, by decide⟩

/-- Claim C2 (amended): for every client method and every non-success HTTP
response, the method raises the remote-operation error whose message carries
the failed operation's name and the raw response body; the HTTP status code
is not part of the error. -/
theorem remote_error_carries_op_name_and_body :
    (∀ (c : TodoistAlchemy) (rp rt : ListResponse), rp.status ≠ 200 →
      (c.sync rp rt).result
        = .error (.alchemyError ("Error fetching projects: " ++ rp.text)))
  ∧ (∀ (c : TodoistAlchemy) (rp rt : ListResponse), rp.status = 200 → rt.status ≠ 200 →
      (c.sync rp rt).result
        = .error (.alchemyError ("Error fetching tasks: " ++ rt.text)))
  ∧ (∀ (c : TodoistAlchemy) (rp rt : ListResponse), c._loaded = false → rp.status ≠ 200 →
      (c.get_projects rp rt).result
        = .error (.alchemyError ("Error fetching projects: " ++ rp.text)))
  ∧ (∀ (c : TodoistAlchemy) (rp rt : ListResponse) (pid : PyVal),
      c._loaded = false → rp.status ≠ 200 →
      (c.get_tasks rp rt pid).result
        = .error (.alchemyError ("Error fetching projects: " ++ rp.text)))
  ∧ (∀ (c : TodoistAlchemy) (name : String) (r : DictResponse), r.status ≠ 200 →
      (c.create_project name r).result
        = .error (.alchemyError ("Error creating project: " ++ r.text)))
  ∧ (∀ (c : TodoistAlchemy) (pid : PyVal) (r : RawResponse),
      ¬(r.status = 204 ∨ r.status = 200) →
      (c.delete_project pid r).result
        = .error (.alchemyError ("Error deleting project: " ++ r.text)))
  ∧ (∀ (c : TodoistAlchemy) (content : String) (pid : PyVal) (kwargs : PyDict)
      (r : DictResponse), r.status ≠ 200 →
      (c.create_task content pid kwargs r).result
        = .error (.alchemyError ("Error creating task: " ++ r.text)))
  ∧ (∀ (c : TodoistAlchemy) (tid : PyVal) (kwargs : PyDict) (r1 : RawResponse)
      (r2 : DictResponse), ¬(r1.status = 204 ∨ r1.status = 200) →
      (c.update_task tid kwargs r1 r2).result
        = .error (.alchemyError ("Error updating task: " ++ r1.text)))
  ∧ (∀ (c : TodoistAlchemy) (tid : PyVal) (kwargs : PyDict) (r1 : RawResponse)
      (r2 : DictResponse), (r1.status = 204 ∨ r1.status = 200) → r2.status ≠ 200 →
      (c.update_task tid kwargs r1 r2).result
        = .error (.alchemyError ("Error fetching updated task: " ++ r2.text)))
  ∧ (∀ (c : TodoistAlchemy) (tid : PyVal) (r : RawResponse),
      ¬(r.status = 204 ∨ r.status = 200) →
      (c.delete_task tid r).result
        = .error (.alchemyError ("Error deleting task: " ++ r.text))) := by
  refine ⟨?_, ?_, ?_, ?_, ?_, ?_, ?_, ?_, ?_, ?_⟩
  · intro c rp rt hp
    simp [sync_projects_fail_eq c rp rt hp]
  · intro c rp rt hp ht
    simp [sync_tasks_fail_eq c rp rt hp ht]
  · intro c rp rt hl hp
    simp [TodoistAlchemy.get_projects, hl, sync_projects_fail_eq c rp rt hp]
  · intro c rp rt pid hl hp
    simp [TodoistAlchemy.get_tasks, hl, sync_projects_fail_eq c rp rt hp]
  · intro c name r hr
    simp [TodoistAlchemy.create_project, hr]
  · intro c pid r hr
    simp [TodoistAlchemy.delete_project, hr]
  · intro c content pid kwargs r hr
    simp [TodoistAlchemy.create_task, hr]
  · intro c tid kwargs r1 r2 hr
    simp [TodoistAlchemy.update_task, hr]
  · intro c tid kwargs r1 r2 h1 h2
    simp [TodoistAlchemy.update_task, h1, h2]
  · intro c tid r hr
    simp [TodoistAlchemy.delete_task, hr]

/-- Witness for the amended Claim C2: a concrete 404 create call raises the
error carrying the operation name and the raw body. -/
theorem remote_error_carries_op_name_and_body_witness :
    (sampleClient.create_project "X"
        { status := 404, text := "not found", jsonBody := [] }).result
      = .error (.alchemyError ("Error creating project: " ++ "not found")) :=
  remote_error_carries_op_name_and_body.2.2.2.2.1 sampleClient "X"
    { status := 404, text := "not found", jsonBody := [] } (by decide)

/-- Claim C3 counterexample: with the numeric projectId 0 (a falsy value),
`get_tasks` returns the whole cached task list, while the subset of cached
tasks whose project reference string-normalizes to "0" is just the first
task, so the returned list is not that subset. -/
theorem get_tasks_zero_project_id_cx :
    (clientZeroSeven.get_tasks emptyListResp emptyListResp (PyVal.pint 0)).result
      = .ok [zeroTask, sevenTask]
  ∧ clientZeroSeven._tasks.filter
      (fun t => pyStr (dictGet t "project_id") == pyStr (PyVal.pint 0)) = [zeroTask]
  ∧ ([zeroTask, sevenTask] : List PyDict) ≠ [zeroTask] :=
  ⟨by decide, by decide, by decide⟩

/-- Claim C3 (amended): for every cached task list and every truthy projectId
(nonzero number or nonempty string), `get_tasks` returns exactly the subset
of cached tasks whose project reference string-normalizes to the string
normalization of projectId; for a falsy projectId (None, the number 0, or
the empty string) it returns the whole cached task list. -/
theorem get_tasks_filters_when_truthy (c : TodoistAlchemy) (rp rt : ListResponse)
    (pid : PyVal) (hl : c._loaded = true) :
    (truthy pid = true →
      c.get_tasks rp rt pid
        = { state := c, requests := [],
            result := .ok (c._tasks.filter
              (fun t => pyStr (dictGet t "project_id") == pyStr pid)) })
  ∧ (truthy pid = false →
      c.get_tasks rp rt pid = { state := c, requests := [], result := .ok c._tasks }) := by
  constructor <;> intro h <;> simp [TodoistAlchemy.get_tasks, hl, h]

/-- Witness for the amended Claim C3 at a concrete cache and the truthy
numeric projectId 7. -/
theorem get_tasks_filters_when_truthy_witness :
    clientZeroSeven.get_tasks emptyListResp emptyListResp (PyVal.pint 7)
      = { state := clientZeroSeven, requests := [],
          result := .ok (clientZeroSeven._tasks.filter
            (fun t => pyStr (dictGet t "project_id") == pyStr (PyVal.pint 7))) } :=
  (get_tasks_filters_when_truthy clientZeroSeven emptyListResp emptyListResp
    (PyVal.pint 7) rfl).1 (by decide)

/-- Claim C4: when the update call returns 200 or 204 and the follow-up
single-task fetch returns 200 with the updated object, the first cache entry
whose id normalizes to the same string as the given id is replaced by the
fetched object, all other cache entries (and the project cache and loaded
flag) are unchanged, and the method returns the fetched object.  Every
cached task is assumed to carry an "id" key, as server-produced objects do. -/
theorem update_task_success_replaces_first_match
    (c : TodoistAlchemy) (tid : PyVal) (kwargs : PyDict)
    (r1 : RawResponse) (r2 : DictResponse)
    (h1 : r1.status = 204 ∨ r1.status = 200) (h2 : r2.status = 200)
    (hid : ∀ t ∈ c._tasks, (List.lookup "id" t).isSome) :
    (c.update_task tid kwargs r1 r2).result = .ok r2.jsonBody
  ∧ (c.update_task tid kwargs r1 r2).state._tasks = replaceFirstSpec c._tasks tid r2.jsonBody
  ∧ (c.update_task tid kwargs r1 r2).state._projects = c._projects
  ∧ (c.update_task tid kwargs r1 r2).state._loaded = c._loaded := by
  have hr := replaceFirstById_eq_spec c._tasks tid r2.jsonBody hid
  simp [TodoistAlchemy.update_task, h1, h2, hr]

/-- Witness for Claim C4: renaming the sample task through a 204 update and
a 200 re-fetch replaces it in the cache and returns the renamed object. -/
theorem update_task_success_replaces_first_match_witness :
    (sampleClient.update_task (PyVal.pint 10) [("content", PyVal.pstr "Renamed")]
        { status := 204, text := "" }
        { status := 200, text := "", jsonBody := renamedTask }).result = .ok renamedTask
  ∧ (sampleClient.update_task (PyVal.pint 10) [("content", PyVal.pstr "Renamed")]
        { status := 204, text := "" }
        { status := 200, text := "", jsonBody := renamedTask }).state._tasks
      = replaceFirstSpec sampleClient._tasks (PyVal.pint 10) renamedTask :=
  ⟨(update_task_success_replaces_first_match sampleClient (PyVal.pint 10)
      [("content", PyVal.pstr "Renamed")] { status := 204, text := "" }
      { status := 200, text := "", jsonBody := renamedTask }
      (Or.inl rfl) rfl (by decide)).1,
   (update_task_success_replaces_first_match sampleClient (PyVal.pint 10)
      [("content", PyVal.pstr "Renamed")] { status := 204, text := "" }
      { status := 200, text := "", jsonBody := renamedTask }
      (Or.inl rfl) rfl (by decide)).2.1⟩

/-- Claim C5: when the update call succeeds (204 or 200) but the follow-up
single-task fetch returns a non-200 status, `update_task` raises the
remote-operation error for the fetch and the whole client state, in
particular the task cache, is left unchanged. -/
theorem update_task_fetch_fail_raises_cache_unchanged
    (c : TodoistAlchemy) (tid : PyVal) (kwargs : PyDict)
    (r1 : RawResponse) (r2 : DictResponse)
    (h1 : r1.status = 204 ∨ r1.status = 200) (h2 : r2.status ≠ 200) :
    (c.update_task tid kwargs r1 r2).result
      = .error (.alchemyError ("Error fetching updated task: " ++ r2.text))
  ∧ (c.update_task tid kwargs r1 r2).state = c := by
  simp [TodoistAlchemy.update_task, h1, h2]

/-- Witness for Claim C5: a 204 update followed by a 404 re-fetch raises and
leaves the sample client unchanged. -/
theorem update_task_fetch_fail_raises_cache_unchanged_witness :
    (sampleClient.update_task (PyVal.pint 10) [("content", PyVal.pstr "Renamed")]
        { status := 204, text := "" }
        { status := 404, text := "not found", jsonBody := [] }).result
      = .error (.alchemyError ("Error fetching updated task: " ++ "not found"))
  ∧ (sampleClient.update_task (PyVal.pint 10) [("content", PyVal.pstr "Renamed")]
        { status := 204, text := "" }
        { status := 404, text := "not found", jsonBody := [] }).state = sampleClient :=
  update_task_fetch_fail_raises_cache_unchanged sampleClient (PyVal.pint 10)
    [("content", PyVal.pstr "Renamed")] { status := 204, text := "" }
    { status := 404, text := "not found", jsonBody := [] } (Or.inl rfl) (by decide)

/-- Claim C6: when the delete call returns 204 or 200, `delete_project`
removes from the project cache exactly the entries whose id, compared as a
normalized string, equals the given id (matching entries removed,
non-matching entries kept in order), the task cache is untouched, and a
subsequent `get_projects` call returns a list containing no entry with that
normalized id.  Every cached project is assumed to carry an "id" key, as
server-produced objects do. -/
theorem delete_project_success_filters_matching
    (c : TodoistAlchemy) (pid : PyVal) (r : RawResponse)
    (h : r.status = 204 ∨ r.status = 200)
    (hid : ∀ p ∈ c._projects, (List.lookup "id" p).isSome)
    (hl : c._loaded = true) :
    (c.delete_project pid r).result = .ok ()
  ∧ (c.delete_project pid r).state._projects
      = c._projects.filter (fun p => !(matchesId p pid))
  ∧ (c.delete_project pid r).state._tasks = c._tasks
  ∧ (∀ rp rt : ListResponse,
      ((c.delete_project pid r).state.get_projects rp rt).result
        = .ok (c._projects.filter (fun p => !(matchesId p pid))))
  ∧ (∀ p ∈ c._projects.filter (fun p => !(matchesId p pid)), matchesId p pid = false) := by
  have hf := filterOutId_eq_filter c._projects pid hid
  have hstate : (c.delete_project pid r).state
      = { c with _projects := c._projects.filter (fun p => !(matchesId p pid)) } := by
    simp [TodoistAlchemy.delete_project, h, hf]
  refine ⟨?_, ?_, ?_, ?_, ?_⟩
  · simp [TodoistAlchemy.delete_project, h, hf]
  · rw [hstate]
  · rw [hstate]
  · intro rp rt
    rw [hstate]
    simp [TodoistAlchemy.get_projects, hl]
  · intro p hp
    have := (List.mem_filter.mp hp).2
    simpa using this

/-- Witness for Claim C6: deleting the sample project by its numeric id via
a 204 response empties the matching entries from the cache. -/
theorem delete_project_success_filters_matching_witness :
    (sampleClient.delete_project (PyVal.pint 1) { status := 204, text := "" }).result = .ok ()
  ∧ (sampleClient.delete_project (PyVal.pint 1) { status := 204, text := "" }).state._projects
      = sampleClient._projects.filter (fun p => !(matchesId p (PyVal.pint 1))) :=
  ⟨(delete_project_success_filters_matching sampleClient (PyVal.pint 1)
      { status := 204, text := "" } (Or.inl rfl) (by decide) rfl).1,
   (delete_project_success_filters_matching sampleClient (PyVal.pint 1)
      { status := 204, text := "" } (Or.inl rfl) (by decide) rfl).2.1⟩

/-- Claim C7: for every create, update or delete operation, a non-success
status from the remote call leaves the whole client state, in particular
both the project cache and the task cache, exactly as it was before. -/
theorem mutating_ops_failure_leave_state :
    (∀ (c : TodoistAlchemy) (name : String) (r : DictResponse), r.status ≠ 200 →
      (c.create_project name r).state = c)
  ∧ (∀ (c : TodoistAlchemy) (content : String) (pid : PyVal) (kwargs : PyDict)
      (r : DictResponse), r.status ≠ 200 →
      (c.create_task content pid kwargs r).state = c)
  ∧ (∀ (c : TodoistAlchemy) (tid : PyVal) (kwargs : PyDict) (r1 : RawResponse)
      (r2 : DictResponse), ¬(r1.status = 204 ∨ r1.status = 200) →
      (c.update_task tid kwargs r1 r2).state = c)
  ∧ (∀ (c : TodoistAlchemy) (pid : PyVal) (r : RawResponse),
      ¬(r.status = 204 ∨ r.status = 200) →
      (c.delete_project pid r).state = c)
  ∧ (∀ (c : TodoistAlchemy) (tid : PyVal) (r : RawResponse),
      ¬(r.status = 204 ∨ r.status = 200) →
      (c.delete_task tid r).state = c) := by
  refine ⟨?_, ?_, ?_, ?_, ?_⟩
  · intro c name r hr
    simp [TodoistAlchemy.create_project, hr]
  · intro c content pid kwargs r hr
    simp [TodoistAlchemy.create_task, hr]
  · intro c tid kwargs r1 r2 hr
    simp [TodoistAlchemy.update_task, hr]
  · intro c pid r hr
    simp [TodoistAlchemy.delete_project, hr]
  · intro c tid r hr
    simp [TodoistAlchemy.delete_task, hr]

/-- Witness for Claim C7: concrete 404 responses leave the sample client
unchanged for all five mutating operations. -/
theorem mutating_ops_failure_leave_state_witness :
    (sampleClient.create_project "X"
        { status := 404, text := "not found", jsonBody := [] }).state = sampleClient
  ∧ (sampleClient.create_task "T" (PyVal.pint 1) []
        { status := 404, text := "not found", jsonBody := [] }).state = sampleClient
  ∧ (sampleClient.update_task (PyVal.pint 10) []
        { status := 404, text := "not found" }
        { status := 200, text := "", jsonBody := [] }).state = sampleClient
  ∧ (sampleClient.delete_project (PyVal.pint 1)
        { status := 404, text := "not found" }).state = sampleClient
  ∧ (sampleClient.delete_task (PyVal.pint 10)
        { status := 404, text := "not found" }).state = sampleClient :=
  ⟨mutating_ops_failure_leave_state.1 sampleClient "X" _ (by decide),
   mutating_ops_failure_leave_state.2.1 sampleClient "T" (PyVal.pint 1) [] _ (by decide),
   mutating_ops_failure_leave_state.2.2.1 sampleClient (PyVal.pint 10) [] _ _ (by decide),
   mutating_ops_failure_leave_state.2.2.2.1 sampleClient (PyVal.pint 1) _ (by decide),
   mutating_ops_failure_leave_state.2.2.2.2 sampleClient (PyVal.pint 10) _ (by decide)⟩

theorem truthy_pnone : truthy PyVal.pnone = false := rfl

theorem truthy_pstr_empty : truthy (PyVal.pstr "") = false := by decide

/-- Claim C8 counterexample: an explicitly supplied empty-string credential
with the environment variable unset still raises the configuration error
(the explicit source did supply a credential value, yet construction fails);
likewise when the environment variable is set to the empty string. -/
theorem mkClient_empty_token_cx :
    mkClient (PyVal.pstr "") none
      = ([], .error (.alchemyError "No Todoist API token provided."))
  ∧ mkClient PyVal.pnone (some "")
      = ([], .error (.alchemyError "No Todoist API token provided.")) :=
  ⟨by decide, by decide⟩

/-- Claim C8 (amended): construction never issues a request; it raises the
configuration error whenever the explicit argument is falsy and the
environment variable is unset or empty, and succeeds, with empty caches and
the unsynced flag, whenever either source supplies a truthy (non-empty)
credential. -/
theorem mkClient_requires_truthy_token (a : PyVal) (e : Option String) :
    (mkClient a e).1 = []
  ∧ ((truthy a = false ∧ (e = none ∨ e = some "")) →
      (mkClient a e).2 = .error (.alchemyError "No Todoist API token provided."))
  ∧ (truthy a = true →
      ∃ cl, (mkClient a e).2 = .ok cl ∧ cl.api_token = a ∧ cl._projects = []
        ∧ cl._tasks = [] ∧ cl._loaded = false)
  ∧ (∀ s : String, e = some s → s ≠ "" → truthy a = false →
      ∃ cl, (mkClient a e).2 = .ok cl ∧ cl.api_token = PyVal.pstr s ∧ cl._projects = []
        ∧ cl._tasks = [] ∧ cl._loaded = false) := by
  refine ⟨?_, ?_, ?_, ?_⟩
  · cases ha : truthy a
    · rcases e with _ | s
      · simp [mkClient, ha, truthy_pnone]
      · cases hs : truthy (PyVal.pstr s) <;> simp [mkClient, ha, hs]
    · simp [mkClient, ha]
  · rintro ⟨ha, he⟩
    rcases he with rfl | rfl
    · simp [mkClient, ha, truthy_pnone]
    · simp [mkClient, ha, truthy_pstr_empty]
  · intro ha
    refine ⟨{ api_token := a,
              headers := [("Authorization", "Bearer " ++ pyStr a),
                          ("Content-Type", "application/json")],
              _projects := [], _tasks := [], _loaded := false }, ?_, rfl, rfl, rfl, rfl⟩
    simp [mkClient, ha]
  · intro s he hs ha
    subst he
    have hts : truthy (PyVal.pstr s) = true := by simpa [truthy] using hs
    refine ⟨{ api_token := PyVal.pstr s,
              headers := [("Authorization", "Bearer " ++ pyStr (PyVal.pstr s)),
                          ("Content-Type", "application/json")],
              _projects := [], _tasks := [], _loaded := false }, ?_, rfl, rfl, rfl, rfl⟩
    simp [mkClient, ha, hts]

/-- Witness for the amended Claim C8: a concrete truthy explicit credential
issues no request, and a concrete absent credential raises. -/
theorem mkClient_requires_truthy_token_witness :
    (mkClient (PyVal.pstr "tok") none).1 = []
  ∧ (mkClient PyVal.pnone none).2 = .error (.alchemyError "No Todoist API token provided.") :=
  ⟨(mkClient_requires_truthy_token (PyVal.pstr "tok") none).1,
   (mkClient_requires_truthy_token PyVal.pnone none).2.1 ⟨rfl, Or.inl rfl⟩⟩

/-- Claim C9: when during `sync` the projects fetch returns 200 but the tasks
fetch does not, the raised error leaves the project cache already replaced
by the newly fetched list, the task cache unchanged, and the loaded flag
unchanged; in particular a never-synced client remains unsynced, so a later
`get_projects` or `get_tasks` call issues the sync requests again. -/
theorem sync_tasks_fail_projects_applied
    (c : TodoistAlchemy) (rp rt : ListResponse)
    (hp : rp.status = 200) (ht : rt.status ≠ 200) :
    (c.sync rp rt).result = .error (.alchemyError ("Error fetching tasks: " ++ rt.text))
  ∧ (c.sync rp rt).state._projects = rp.jsonBody
  ∧ (c.sync rp rt).state._tasks = c._tasks
  ∧ (c.sync rp rt).state._loaded = c._loaded
  ∧ (c._loaded = false →
      (c.sync rp rt).state._loaded = false
    ∧ (∀ rp2 rt2 : ListResponse,
        ((c.sync rp rt).state.get_projects rp2 rt2).requests
          = ((c.sync rp rt).state.sync rp2 rt2).requests
      ∧ ((c.sync rp rt).state.get_tasks rp2 rt2 PyVal.pnone).requests
          = ((c.sync rp rt).state.sync rp2 rt2).requests)) := by
  rw [sync_tasks_fail_eq c rp rt hp ht]
  refine ⟨rfl, rfl, rfl, rfl, ?_⟩
  intro hl
  refine ⟨hl, ?_⟩
  intro rp2 rt2
  constructor
  · exact get_projects_unloaded_requests _ rp2 rt2 hl
  · exact get_tasks_unloaded_requests _ rp2 rt2 PyVal.pnone hl

/-- Witness for Claim C9 at a concrete never-synced client, a successful
projects response and a failing tasks response. -/
theorem sync_tasks_fail_projects_applied_witness :
    (sampleUnsynced.sync sampleProjectsResp
        { status := 500, text := "boom", jsonBody := [] }).result
      = .error (.alchemyError ("Error fetching tasks: " ++ "boom"))
  ∧ (sampleUnsynced.sync sampleProjectsResp
        { status := 500, text := "boom", jsonBody := [] }).state._projects
      = sampleProjectsResp.jsonBody :=
  ⟨(sync_tasks_fail_projects_applied sampleUnsynced sampleProjectsResp
      { status := 500, text := "boom", jsonBody := [] } rfl (by decide)).1,
   (sync_tasks_fail_projects_applied sampleUnsynced sampleProjectsResp
      { status := 500, text := "boom", jsonBody := [] } rfl (by decide)).2.1⟩

theorem dictUpdate_cons (d : PyDict) (kv : String × PyVal) (kw : PyDict) :
    dictUpdate d (kv :: kw) = dictUpdate (setItem d kv.1 kv.2) kw := rfl

theorem lookup_setItem_self (d : PyDict) (k : String) (v : PyVal) :
    List.lookup k (setItem d k v) = some v := by
  induction d with
  | nil => simp [setItem, List.lookup]
  | cons kv rest ih =>
    obtain ⟨k0, v0⟩ := kv
    by_cases h : k0 = k
    · subst h
      simp [setItem, List.lookup]
    · have hb : (k0 == k) = false := beq_eq_false_iff_ne.mpr h
      have hb2 : (k == k0) = false := beq_eq_false_iff_ne.mpr (Ne.symm h)
      simp [setItem, List.lookup, hb, hb2, ih]

theorem lookup_setItem_ne (d : PyDict) (k k0 : String) (v0 : PyVal) (h : k ≠ k0) :
    List.lookup k (setItem d k0 v0) = List.lookup k d := by
  induction d with
  | nil => simp [setItem, List.lookup, beq_eq_false_iff_ne.mpr h]
  | cons kv rest ih =>
    obtain ⟨k1, v1⟩ := kv
    by_cases h1 : k1 = k0
    · subst h1
      simp [setItem, List.lookup, beq_eq_false_iff_ne.mpr h]
    · have hb : (k1 == k0) = false := beq_eq_false_iff_ne.mpr h1
      by_cases h2 : k = k1
      · subst h2
        simp [setItem, List.lookup, hb]
      · simp [setItem, List.lookup, hb, beq_eq_false_iff_ne.mpr h2, ih]

theorem lookup_dictUpdate_not_mem (d : PyDict) (kw : PyDict) (k : String)
    (h : k ∉ kw.map Prod.fst) :
    List.lookup k (dictUpdate d kw) = List.lookup k d := by
  induction kw generalizing d with
  | nil => rfl
  | cons kv tl ih =>
    have hk : k ≠ kv.1 := by
      intro he
      exact h (by simp [he])
    have htl : k ∉ tl.map Prod.fst := fun hm => h (by simp [hm])
    rw [dictUpdate_cons, ih (setItem d kv.1 kv.2) htl, lookup_setItem_ne d k kv.1 kv.2 hk]

theorem lookup_dictUpdate (d : PyDict) (kw : PyDict) (k : String) (v : PyVal)
    (hnd : (kw.map Prod.fst).Nodup) (h : List.lookup k kw = some v) :
    List.lookup k (dictUpdate d kw) = some v := by
  induction kw generalizing d with
  | nil => simp [List.lookup] at h
  | cons kv tl ih =>
    obtain ⟨k1, v1⟩ := kv
    rw [List.map_cons, List.nodup_cons] at hnd
    by_cases hk : k = k1
    · subst hk
      have hv : v1 = v := by simpa [List.lookup] using h
      subst hv
      rw [dictUpdate_cons, lookup_dictUpdate_not_mem (setItem d k v1) tl k hnd.1,
        lookup_setItem_self]
    · have hb : (k == k1) = false := beq_eq_false_iff_ne.mpr hk
      have h2 : List.lookup k tl = some v := by simpa [List.lookup, hb] using h
      rw [dictUpdate_cons]
      exact ih (setItem d k1 v1) hnd.2 h2

/-- Claim C10: `create_task` merges the extra keyword fields into the request
body after the content and project id entries, so whenever the keyword
fields contain a key named "content" or "project_id", the body sent to the
remote service carries the keyword value for that key, overriding the
positional argument. -/
theorem create_task_kwargs_override
    (c : TodoistAlchemy) (content : String) (pid : PyVal) (kwargs : PyDict)
    (r : DictResponse) (k : String) (v : PyVal)
    (hnd : (kwargs.map Prod.fst).Nodup) (hk : List.lookup k kwargs = some v)
    (hkey : k = "content" ∨ k = "project_id") :
    (c.create_task content pid kwargs r).requests
      = [{ method := "POST", url := TODOIST_API_BASE ++ "tasks",
           body := some (create_task_payload content pid kwargs) }]
  ∧ List.lookup k (create_task_payload content pid kwargs) = some v := by
  constructor
  · by_cases hr : r.status = 200 <;> simp [TodoistAlchemy.create_task, hr]
  · exact lookup_dictUpdate _ kwargs k v hnd hk

/-- Witness for Claim C10: a keyword field named "content" overrides the
positional content argument in the request body. -/
theorem create_task_kwargs_override_witness :
    List.lookup "content"
        (create_task_payload "A" (PyVal.pint 1) [("content", PyVal.pstr "B")])
      = some (PyVal.pstr "B") :=
  (create_task_kwargs_override sampleClient "A" (PyVal.pint 1)
    [("content", PyVal.pstr "B")] { status := 200, text := "", jsonBody := [] }
    "content" (PyVal.pstr "B") (by decide) (by decide) (Or.inl rfl)).2
